import Mathlib

/-!
# Verification of the DealFlow collaboration hub

A shallow embedding of `backend/app/collaboration_system.py` (class
`CollaborationHub` and its data model), together with theorems checking the
specified behaviour of the voting engine, the broadcaster, the connection
registry, share tokens and the websocket message dispatcher.

Modelling conventions:
* Python `dict`s are insertion-ordered association lists (`List (K × V)`);
  assignment to an existing key overwrites in place, a new key is appended
  (`dictSet`), matching CPython dict semantics.
* Python `float` arithmetic on vote scores is modelled by exact rational
  arithmetic (`Rat`).  The recommendation thresholds 1.5 / 0.5 / −0.5 are
  dyadic and hence exact; the consensus thresholds 0.8 / 0.6 / 0.4 are
  modelled as 4/5, 3/5, 2/5.
* `datetime` timestamps attached to log entries and outbound events carry no
  information used by any verified property and are omitted from the embedded
  records; where expiry comparisons matter (share tokens) time is an explicit
  `Nat` of seconds.
-/

namespace DealFlow

/-- Lookup in a Python dict modelled as an association list
(first match wins; a dict has unique keys so this is the entry). -/
def dictGet {α : Type} : List (String × α) → String → Option α
  | [], _ => none
  | (k1, v) :: rest, k => if k1 = k then some v else dictGet rest k

/-- Assignment `d[k] = v` on a Python dict: overwrite in place if the key is
present (keeping its position), otherwise append the new entry. -/
def dictSet {α : Type} : List (String × α) → String → α → List (String × α)
  | [], k, v => [(k, v)]
  | (k1, v1) :: rest, k, v =>
    if k1 = k then (k, v) :: rest else (k1, v1) :: dictSet rest k v

/-- `VoteType` enum (collaboration_system.py lines 40-47). -/
inductive VoteType
  | strong_yes
  | yes
  | neutral
  | no
  | strong_no
  | abstain
deriving DecidableEq, Repr

/-- The `.value` string of each `VoteType` member. -/
def VoteType.value : VoteType → String
  | .strong_yes => "strong_yes"
  | .yes => "yes"
  | .neutral => "neutral"
  | .no => "no"
  | .strong_no => "strong_no"
  | .abstain => "abstain"

/-- The `weights` dict of `calculate_vote_summary` (lines 632-639).
Every `VoteType` member has an entry, so the Python `weights.get(vote, 0)`
default is never used. -/
def weights : VoteType → Int
  | .strong_yes => 2
  | .yes => 1
  | .neutral => 0
  | .no => -1
  | .strong_no => -2
  | .abstain => 0

/-- One `vote_counts[vote.value] += 1` step on the `defaultdict(int)`
(line 625): increment in place if present, else append with count 1. -/
def bumpCount : List (String × Nat) → String → List (String × Nat)
  | [], k => [(k, 1)]
  | (k1, c) :: rest, k =>
    if k1 = k then (k1, c + 1) :: rest else (k1, c) :: bumpCount rest k

/-- The `vote_counts` defaultdict built by the loop at lines 623-625,
in first-appearance order. -/
def vote_counts (votes : List (String × VoteType)) : List (String × Nat) :=
  votes.foldl (fun cs p => bumpCount cs p.2.value) []

/-- `max(vote_counts.values())` (line 676).  Python `max` raises on an empty
sequence; the only call site guards `total_votes == 0` first and is reached
only with a non-empty counts dict, where `foldl Nat.max 0` agrees with it. -/
def max_votes (counts : List (String × Nat)) : Nat :=
  (counts.map Prod.snd).foldl Nat.max 0

/-- `calculate_consensus(vote_counts, total_votes)` (lines 665-686). -/
def calculate_consensus (counts : List (String × Nat)) (total : Nat) : String :=
  if total = 0 then "no_consensus"
  else
    let ratio : Rat := (max_votes counts : Rat) / (total : Rat)
    if (4 : Rat)/5 ≤ ratio then "strong_consensus"
    else if (3 : Rat)/5 ≤ ratio then "moderate_consensus"
    else if (2 : Rat)/5 ≤ ratio then "weak_consensus"
    else "no_consensus"

/-- The fields of the dict returned by `calculate_vote_summary` on a
non-empty vote map (lines 656-663). -/
structure Tally where
  total_votes : Nat
  vote_counts : List (String × Nat)
  weighted_score : Int
  average_score : Rat
  recommendation : String
  consensus_level : String
deriving DecidableEq, Repr

/-- Result of `calculate_vote_summary`: the early-return dict
`{"status": "no_votes", "recommendation": "pending"}` (line 629) or the full
summary dict. -/
inductive VoteSummary
  | no_votes (status : String) (recommendation : String)
  | tallied (t : Tally)
deriving DecidableEq, Repr

/-- `calculate_vote_summary(votes)` (lines 616-663). -/
def calculate_vote_summary (votes : List (String × VoteType)) : VoteSummary :=
  let counts := vote_counts votes
  let total := votes.length
  if total = 0 then .no_votes "no_votes" "pending"
  else
    let weighted_score : Int := (votes.map (fun p => weights p.2)).sum
    let avg_score : Rat := (weighted_score : Rat) / (total : Rat)
    let recommendation :=
      if (3 : Rat)/2 ≤ avg_score then "strong_proceed"
      else if (1 : Rat)/2 ≤ avg_score then "proceed"
      else if (-1 : Rat)/2 ≤ avg_score then "further_review"
      else "do_not_proceed"
    .tallied ⟨total, counts, weighted_score, avg_score, recommendation,
      calculate_consensus counts total⟩

/-- `vote_summary["recommendation"]`: present in both shapes of the
returned dict. -/
def VoteSummary.recommendation : VoteSummary → String
  | .no_votes _ r => r
  | .tallied t => t.recommendation

/-- `vote_summary["weighted_score"]`: absent (KeyError) on the no-votes
dict. -/
def VoteSummary.weightedScore : VoteSummary → Option Int
  | .no_votes _ _ => none
  | .tallied t => some t.weighted_score

/-- `vote_summary["average_score"]`: absent (KeyError) on the no-votes
dict. -/
def VoteSummary.averageScore : VoteSummary → Option Rat
  | .no_votes _ _ => none
  | .tallied t => some t.average_score

/-- `vote_summary["consensus_level"]`: absent (KeyError) on the no-votes
dict. -/
def VoteSummary.consensusLevel : VoteSummary → Option String
  | .no_votes _ _ => none
  | .tallied t => some t.consensus_level

/-- Strength ordering of the four consensus levels, used to state that the
bucket is monotone in the consensus ratio. -/
def consensusRank (s : String) : Nat :=
  if s = "strong_consensus" then 3
  else if s = "moderate_consensus" then 2
  else if s = "weak_consensus" then 1
  else 0

/-- From the claim's words (C1): the fixed vote weights
strong_yes=2, yes=1, neutral=0, no=-1, strong_no=-2, abstain=0. -/
def specVoteWeight : VoteType → Int
  | .strong_yes => 2
  | .yes => 1
  | .neutral => 0
  | .no => -1
  | .strong_no => -2
  | .abstain => 0

/-- From the claim's words (C1): recommendation thresholds on the average
score. -/
def specRecommendationBucket (avg : Rat) : String :=
  if (3 : Rat)/2 ≤ avg then "strong_proceed"
  else if (1 : Rat)/2 ≤ avg then "proceed"
  else if (-1 : Rat)/2 ≤ avg then "further_review"
  else "do_not_proceed"

/-- From the claim's words (C7): consensus thresholds on the ratio
`max(count)/total`. -/
def specConsensusBucket (r : Rat) : String :=
  if (4 : Rat)/5 ≤ r then "strong_consensus"
  else if (3 : Rat)/5 ≤ r then "moderate_consensus"
  else if (2 : Rat)/5 ≤ r then "weak_consensus"
  else "no_consensus"

/-! ### Share tokens (`generate_share_token` / `verify_share_token`) -/

/-- Claims payload of the share JWT built by `generate_share_token`
(lines 696-701).  `exp` and `iat` are Unix seconds;
`timedelta(days=7)` is `7 * 24 * 60 * 60` seconds. -/
structure TokenPayload where
  deal_id : String
  permissions : List (String × Bool)
  exp : Nat
  iat : Nat
deriving DecidableEq, Repr

/-- A JWT as produced by `jwt.encode(payload, secret, algorithm="HS256")`:
the payload together with its HMAC-SHA256 signature.  The MAC is modelled
as the pair (secret, signed payload) itself — an idealized collision-free
MAC: a signature verifies exactly when it was produced with the same
secret over the same payload, and any tampering with the payload or a
wrong secret is detected. -/
structure SignedToken where
  payload : TokenPayload
  sig : String × TokenPayload
deriving DecidableEq, Repr

/-- `jwt.encode(payload, secret, algorithm="HS256")`. -/
def jwt_encode (secret : String) (payload : TokenPayload) : SignedToken :=
  ⟨payload, (secret, payload)⟩

/-- The two PyJWT failures caught by `verify_share_token`. -/
inductive JwtError
  | expiredSignature
  | invalidToken
deriving DecidableEq, Repr

/-- `jwt.decode(token, secret, algorithms=["HS256"])` evaluated at time
`now`: the signature/structure check runs first (`InvalidTokenError`),
then the registered `exp` claim is validated with zero leeway
(`ExpiredSignatureError` when `exp <= now`). -/
def jwt_decode (secret : String) (now : Nat) (t : SignedToken) :
    Except JwtError TokenPayload :=
  if t.sig ≠ (secret, t.payload) then .error .invalidToken
  else if t.payload.exp ≤ now then .error .expiredSignature
  else .ok t.payload

/-- `generate_share_token(deal_id, permissions)` (lines 688-709) called at
time `now`. -/
def generate_share_token (secret deal_id : String)
    (permissions : List (String × Bool)) (now : Nat) : SignedToken :=
  jwt_encode secret ⟨deal_id, permissions, now + 7 * 24 * 60 * 60, now⟩

/-- The two HTTP 401 error kinds raised by `verify_share_token`
(lines 722-725): "Share link expired" and "Invalid share token". -/
inductive ShareTokenError
  | expired
  | invalid
deriving DecidableEq, Repr

/-- `verify_share_token(token)` (lines 711-725) evaluated at time `now`. -/
def verify_share_token (secret : String) (now : Nat) (t : SignedToken) :
    Except ShareTokenError TokenPayload :=
  match jwt_decode secret now t with
  | .ok p => .ok p
  | .error .expiredSignature => .error .expired
  | .error .invalidToken => .error .invalid

/-! ### Deal store, voting state machine and websocket handlers

The slice of `Workspace`, `Deal`, `DueDiligenceItem` and the
`CollaborationHub` caches that the embedded operations read or write.
Fields never touched by those operations (company snapshot, documents,
tags, timestamps, ...) are omitted.  Python object identity is handled as
follows: every call path below fetches a deal through `get_deal`, which
leaves the object cached under its key, so an in-place field assignment on
that object is modelled as a functional update of the cache entry.  Calls
to `broadcast_to_workspace`, `send_notification` and `websocket.send_json`
made by the handlers are recorded as `Effect`s in order; the delivery
mechanics of `broadcast_to_workspace` itself are modelled separately
below. -/

/-- `DealStatus` enum (lines 28-38). -/
inductive DealStatus
  | sourced
  | screening
  | due_diligence
  | partner_review
  | ic_review
  | negotiation
  | closed_won
  | closed_lost
  | monitoring
deriving DecidableEq, Repr

/-- One entry of `Deal.activity_log` as built by `log_activity`
(lines 892-897); the timestamp field is omitted. -/
structure ActivityEntry where
  user_id : String
  action : String
  details : String
deriving DecidableEq, Repr

/-- One entry of `Deal.ic_comments` as appended by `handle_vote_cast`
(lines 321-326); the timestamp field is omitted. -/
structure IcComment where
  user_id : String
  comment : String
  vote : String
deriving DecidableEq, Repr

/-- The fields of `Deal` read or written by the embedded operations. -/
structure DealM where
  deal_id : String
  workspace_id : String
  status : DealStatus
  ic_votes : List (String × VoteType)
  ic_comments : List IcComment
  activity_log : List ActivityEntry
deriving DecidableEq, Repr

/-- The fields of `Workspace` read by the embedded operations. -/
structure WorkspaceM where
  workspace_id : String
  members : List String
deriving DecidableEq, Repr

/-- The fields of `DueDiligenceItem` read or written by
`handle_dd_item_update`; `completed_at` is a `datetime` whose value is
never read, modelled as a presence flag. -/
structure DDItemM where
  item_id : String
  deal_id : String
  category : String
  title : String
  description : Option String
  assigned_to : Option String
  status : String
  priority : String
  completed_at_set : Bool
deriving DecidableEq, Repr

/-- The redis hashes the embedded operations touch (`"deals"` and
`"dd_items"`). -/
structure RedisState where
  deals : List (String × DealM)
  dd_items : List (String × DDItemM)
deriving DecidableEq, Repr

/-- Outbound JSON payloads, keeping the fields the verified properties
observe; the ISO timestamp field is omitted. -/
inductive OutEvent
  | user_joined (user_id : String)
  | user_left (user_id : String)
  | vote_update (deal_id user_id vote : String) (vote_summary : VoteSummary)
  | ic_decision_final (deal_id decision : String) (vote_summary : VoteSummary)
  | dd_item_updated (item_id user_id : String)
  | error_reply (message : String)
  | workspace_state (workspace_id : String)
deriving DecidableEq, Repr

/-- Payloads passed to `send_notification`. -/
inductive NotifEvent
  | dd_completed (item : String) (completed_by : String)
deriving DecidableEq, Repr

/-- One outbound call made by a handler, in program order:
`broadcast_to_workspace`, `send_notification`, or a direct
`websocket.send_json` to the connection being handled. -/
inductive Effect
  | broadcast (workspace_id : String) (payload : OutEvent) (exclude_user : Option String)
  | notify (user_id : Option String) (payload : NotifEvent)
  | reply (payload : OutEvent)
deriving DecidableEq, Repr

/-- The `CollaborationHub` state the voting and DD handlers touch, plus
the ordered log of outbound calls they make. -/
structure Hub where
  workspace_cache : List (String × WorkspaceM)
  deal_cache : List (String × DealM)
  redis : Option RedisState
  effects : List Effect
deriving DecidableEq, Repr

/-- Record one outbound call. -/
def emit (hub : Hub) (e : Effect) : Hub :=
  { hub with effects := hub.effects ++ [e] }

/-- `get_deal(deal_id)` (lines 824-836): `deal_cache` first, then redis,
filling the cache on a redis hit. -/
def get_deal (hub : Hub) (deal_id : String) : Hub × Option DealM :=
  match dictGet hub.deal_cache deal_id with
  | some d => (hub, some d)
  | none =>
    match hub.redis with
    | some r =>
      match dictGet r.deals deal_id with
      | some d => ({ hub with deal_cache := dictSet hub.deal_cache deal_id d }, some d)
      | none => (hub, none)
    | none => (hub, none)

/-- Observer: the deal `get_deal` would return, without the cache fill. -/
def peek_deal (hub : Hub) (deal_id : String) : Option DealM :=
  match dictGet hub.deal_cache deal_id with
  | some d => some d
  | none =>
    match hub.redis with
    | some r => dictGet r.deals deal_id
    | none => none

/-- `save_deal(deal)` (lines 815-822): writes the redis hash only (the
cache holds the same object by identity). -/
def save_deal (hub : Hub) (d : DealM) : Hub :=
  match hub.redis with
  | some r => { hub with redis := some { r with deals := dictSet r.deals d.deal_id d } }
  | none => hub

/-- In-place mutation of a deal object held in `deal_cache` under `key`
(see the section comment). -/
def cache_put (hub : Hub) (key : String) (d : DealM) : Hub :=
  { hub with deal_cache := dictSet hub.deal_cache key d }

/-- `get_required_voters(workspace)` (lines 927-931): all workspace
members. -/
def get_required_voters (ws : WorkspaceM) : List String :=
  ws.members

/-- `is_voting_complete(deal, workspace_id)` (lines 911-925). -/
def is_voting_complete (hub : Hub) (deal : DealM) (workspace_id : String) : Bool :=
  match dictGet hub.workspace_cache workspace_id with
  | none => false
  | some ws =>
    (get_required_voters ws).all (fun v => (deal.ic_votes.map Prod.fst).contains v)

/-- `log_activity(deal_id, user_id, action, details)` (lines 884-902):
fetch the deal, append one activity entry in place, persist.  Silently a
no-op when the deal is unknown. -/
def log_activity (hub : Hub) (deal_id user_id action details : String) : Hub :=
  let r := get_deal hub deal_id
  match r.2 with
  | none => r.1
  | some d =>
    let d1 := { d with activity_log := d.activity_log ++ [⟨user_id, action, details⟩] }
    save_deal (cache_put r.1 deal_id d1) d1

/-- `finalize_ic_decision(deal, workspace_id)` (lines 933-965).  On the
no-votes summary the f-string `vote_summary['consensus_level']` raises
KeyError (the early-return dict lacks that key); the model reports that as
`.error` (unreachable from `handle_vote_cast`, which has just recorded a
vote). -/
def finalize_ic_decision (hub : Hub) (deal : DealM) (workspace_id : String) :
    Except String Hub :=
  let vote_summary := calculate_vote_summary deal.ic_votes
  let approved := vote_summary.recommendation = "strong_proceed" ∨
    vote_summary.recommendation = "proceed"
  let deal1 := { deal with
    status := if approved then DealStatus.negotiation else DealStatus.closed_lost }
  let decision := if approved then "approved" else "rejected"
  let hub1 := save_deal (cache_put hub deal.deal_id deal1) deal1
  let hub2 := emit hub1
    (.broadcast workspace_id (.ic_decision_final deal.deal_id decision vote_summary) none)
  match vote_summary.consensusLevel with
  | some cl =>
    .ok (log_activity hub2 deal.deal_id "system" "ic_decision"
      ("IC Decision: " ++ decision ++ " with " ++ cl ++ " consensus"))
  | none => .error "KeyError consensus_level"

/-- `handle_vote_cast(message, user_id, workspace_id)` (lines 303-348).
The message fields are passed already extracted: `deal_id`,
`vote = VoteType(message.get("vote"))` (the enum constructor has already
accepted the string), `comment` defaulting to `""`. -/
def handle_vote_cast (hub : Hub) (user_id workspace_id deal_id : String)
    (vote : VoteType) (comment : String) : Except String Hub :=
  let r := get_deal hub deal_id
  match r.2 with
  | none => .ok r.1
  | some deal =>
    let deal1 := { deal with
      ic_votes := dictSet deal.ic_votes user_id vote,
      ic_comments :=
        if comment ≠ "" then deal.ic_comments ++ [⟨user_id, comment, vote.value⟩]
        else deal.ic_comments }
    let hub1 := save_deal (cache_put r.1 deal_id deal1) deal1
    let vote_summary := calculate_vote_summary deal1.ic_votes
    let hub2 := emit hub1
      (.broadcast workspace_id (.vote_update deal_id user_id vote.value vote_summary) none)
    if is_voting_complete hub2 deal1 workspace_id then
      finalize_ic_decision hub2 deal1 workspace_id
    else
      .ok hub2

/-- `get_dd_item(item_id)` (lines 876-882): redis only, no cache. -/
def get_dd_item (hub : Hub) (item_id : String) : Option DDItemM :=
  match hub.redis with
  | some r => dictGet r.dd_items item_id
  | none => none

/-- `save_dd_item(dd_item)` (lines 867-874). -/
def save_dd_item (hub : Hub) (item : DDItemM) : Hub :=
  match hub.redis with
  | some r =>
    { hub with redis := some { r with dd_items := dictSet r.dd_items item.item_id item } }
  | none => hub

/-- The `updates` dict of a `dd_item_update` message, restricted to the
settable attributes the model carries; keys failing the source's
`hasattr` check are ignored there and unrepresentable here. -/
structure DDUpdates where
  category : Option String
  title : Option String
  description : Option String
  assigned_to : Option String
  status : Option String
  priority : Option String
deriving DecidableEq, Repr

/-- The `setattr` loop of `handle_dd_item_update` (lines 365-367). -/
def apply_dd_updates (item : DDItemM) (u : DDUpdates) : DDItemM :=
  { item with
    category := u.category.getD item.category,
    title := u.title.getD item.title,
    description := (u.description.map some).getD item.description,
    assigned_to := (u.assigned_to.map some).getD item.assigned_to,
    status := u.status.getD item.status,
    priority := u.priority.getD item.priority }

/-- `handle_dd_item_update(message, user_id, workspace_id)`
(lines 350-395). -/
def handle_dd_item_update (hub : Hub) (user_id workspace_id item_id : String)
    (updates : DDUpdates) : Hub :=
  match get_dd_item hub item_id with
  | none => hub
  | some item =>
    let item1 := apply_dd_updates item updates
    let step :=
      if updates.status = some "completed" then
        ({ item1 with completed_at_set := true },
          emit hub (.notify item1.assigned_to (.dd_completed item1.title user_id)))
      else (item1, hub)
    let hub2 := save_dd_item step.2 step.1
    emit hub2 (.broadcast workspace_id (.dd_item_updated item_id user_id) none)

/-! ### Connection registry and broadcaster -/

/-- Distinct `WebSocket` objects. -/
abbrev ConnId := Nat

/-- `active_connections: defaultdict(set)` mapping workspace id to its set
of live sockets (insertion-ordered, set semantics), and
`user_connections` mapping user id to socket (lines 128-129). -/
structure Registry where
  active_connections : List (String × List ConnId)
  user_connections : List (String × ConnId)
deriving DecidableEq, Repr

/-- Python `set.add`. -/
def setAdd (s : List ConnId) (c : ConnId) : List ConnId :=
  if s.contains c then s else s ++ [c]

/-- Python `set.discard`. -/
def setDiscard (s : List ConnId) (c : ConnId) : List ConnId :=
  s.filter (fun x => x ≠ c)

/-- Removal of a dict entry (`dict.pop(k, None)`). -/
def dictPop {α : Type} (m : List (String × α)) (k : String) : List (String × α) :=
  m.filter (fun p => p.1 ≠ k)

/-- `connect_websocket(websocket, user_id, workspace_id)` (lines 134-161):
register the socket in both maps, broadcast `user_joined` excluding the
joining user, send the workspace state to the new socket.
(`websocket.accept()` is connection I/O with no registry effect.) -/
def connect_websocket (reg : Registry) (websocket : ConnId)
    (user_id workspace_id : String) : Registry × List Effect :=
  let conns := (dictGet reg.active_connections workspace_id).getD []
  ({ active_connections :=
       dictSet reg.active_connections workspace_id (setAdd conns websocket),
     user_connections := dictSet reg.user_connections user_id websocket },
   [.broadcast workspace_id (.user_joined user_id) (some user_id),
    .reply (.workspace_state workspace_id)])

/-- `disconnect_websocket(websocket, user_id, workspace_id)`
(lines 163-183). -/
def disconnect_websocket (reg : Registry) (websocket : ConnId)
    (user_id workspace_id : String) : Registry × List Effect :=
  let conns := (dictGet reg.active_connections workspace_id).getD []
  ({ active_connections :=
       dictSet reg.active_connections workspace_id (setDiscard conns websocket),
     user_connections := dictPop reg.user_connections user_id },
   [.broadcast workspace_id (.user_left user_id) none])

/-- `get_user_id_from_connection(connection)` (lines 904-909). -/
def get_user_id_from_connection (user_conns : List (String × ConnId))
    (c : ConnId) : Option String :=
  match user_conns.find? (fun p => p.2 == c) with
  | some p => some p.1
  | none => none

/-- The `for connection in connections` loop of `broadcast_to_workspace`
(lines 747-758), with CPython set-iterator semantics: the
`connections.discard(connection)` in the except-branch changes the set's
size, so the *next* iterator step — including the final one that would
otherwise end the loop — raises `RuntimeError: Set changed size during
iteration`, which is not caught.  `sendOk c` tells whether
`connection.send_json` succeeds on socket `c`.  Returns (sockets that
received the message, surviving connection set, `true` iff the loop
finished without raising). -/
def broadcast_loop (user_conns : List (String × ConnId)) (sendOk : ConnId → Bool)
    (exclude_user : Option String) :
    List ConnId → List ConnId × List ConnId × Bool
  | [] => ([], [], true)
  | c :: rest =>
    let skip :=
      match exclude_user with
      | some u => get_user_id_from_connection user_conns c == some u
      | none => false
    if skip then
      let t := broadcast_loop user_conns sendOk exclude_user rest
      (t.1, c :: t.2.1, t.2.2)
    else if sendOk c then
      let t := broadcast_loop user_conns sendOk exclude_user rest
      (c :: t.1, c :: t.2.1, t.2.2)
    else
      ([], rest, false)

/-- `broadcast_to_workspace(workspace_id, message, exclude_user)`
(lines 736-758).  `active_connections.get(workspace_id, set())` returns a
fresh empty set when the key is absent (plain `.get` does not insert). -/
def broadcast_to_workspace (reg : Registry) (sendOk : ConnId → Bool)
    (workspace_id : String) (exclude_user : Option String) :
    List ConnId × Registry × Bool :=
  match dictGet reg.active_connections workspace_id with
  | none => ([], reg, true)
  | some conns =>
    let t := broadcast_loop reg.user_connections sendOk exclude_user conns
    (t.1,
     { reg with active_connections := dictSet reg.active_connections workspace_id t.2.1 },
     t.2.2)

/-! ### Message dispatch (`handle_websocket_message`) -/

/-- The entries of the `handlers` dict literal (lines 197-207) in source
order: message type key, attribute name evaluated as `self.<name>`. -/
def handler_table : List (String × String) :=
  [("cursor_move", "handle_cursor_move"),
   ("selection_change", "handle_selection_change"),
   ("annotation_create", "handle_annotation_create"),
   ("annotation_reply", "handle_annotation_reply"),
   ("deal_update", "handle_deal_update"),
   ("vote_cast", "handle_vote_cast"),
   ("comment_add", "handle_comment_add"),
   ("dd_item_update", "handle_dd_item_update"),
   ("typing_indicator", "handle_typing_indicator")]

/-- The methods actually defined on class `CollaborationHub` (its `def`
statements).  `handle_annotation_reply`, `handle_deal_update` and
`handle_comment_add` are referenced by the dict literal but never
defined. -/
def defined_methods : List String :=
  ["connect_websocket", "disconnect_websocket", "handle_websocket_message",
   "handle_cursor_move", "handle_selection_change", "handle_annotation_create",
   "handle_vote_cast", "handle_dd_item_update", "handle_typing_indicator",
   "create_workspace", "create_deal", "share_deal", "create_dd_checklist",
   "calculate_vote_summary", "calculate_consensus", "generate_share_token",
   "verify_share_token", "extract_mentions", "broadcast_to_workspace",
   "send_notification", "send_workspace_state", "save_deal", "get_deal",
   "get_workspace_deals", "save_annotation", "save_dd_item", "get_dd_item",
   "log_activity", "get_user_id_from_connection", "is_voting_complete",
   "get_required_voters", "finalize_ic_decision"]

/-- Evaluating the `handlers` dict literal: each value `self.<name>` is an
attribute lookup, evaluated in source order; the first name not defined on
the class raises AttributeError naming it. -/
def build_handlers_go : List (String × String) → Except String (List (String × String))
  | [] => .ok []
  | (k, m) :: rest =>
    if defined_methods.contains m then
      match build_handlers_go rest with
      | .ok d => .ok ((k, m) :: d)
      | .error e => .error e
    else .error m

/-- The `handlers` dict of `handle_websocket_message`. -/
def build_handlers : Except String (List (String × String)) :=
  build_handlers_go handler_table

/-- What a call to `handle_websocket_message` does at the dispatch level:
which handler method runs (their bodies are the functions modelled above),
or the error reply sent back to the sending socket for an unrecognized
type. -/
inductive DispatchOutcome
  | handled (method : String)
  | unknown_reply (payload : OutEvent)
deriving DecidableEq, Repr

/-- `handle_websocket_message(websocket, message, ...)` (lines 185-216)
for a message whose `"type"` field is `message_type`.  The dict literal is
rebuilt on every call, so every call evaluates the missing attributes. -/
def handle_websocket_message (message_type : String) : Except String DispatchOutcome :=
  match build_handlers with
  | .error m => .error ("AttributeError: " ++ m)
  | .ok hs =>
    match dictGet hs message_type with
    | some m => .ok (.handled m)
    | none =>
      .ok (.unknown_reply (.error_reply ("Unknown message type: " ++ message_type)))

/-! ### Observers and concrete scenario states used in the theorems -/

/-- Observer: status of a stored deal. -/
def status_of (hub : Hub) (deal_id : String) : Option DealStatus :=
  (peek_deal hub deal_id).map (fun d => d.status)

/-- Observer: length of a stored deal's activity log. -/
def activity_len (hub : Hub) (deal_id : String) : Option Nat :=
  (peek_deal hub deal_id).map (fun d => d.activity_log.length)

/-- Observer: how many `ic_decision_final` broadcasts were made. -/
def count_final_broadcasts (hub : Hub) : Nat :=
  (hub.effects.filter (fun e =>
    match e with
    | .broadcast _ (.ic_decision_final _ _ _) _ => true
    | _ => false)).length

/-- Observer: the cache and store key every stored deal under its own
`deal_id` (true of every state the hub itself constructs). -/
def deal_keys_ok (hub : Hub) : Bool :=
  hub.deal_cache.all (fun p => p.2.deal_id == p.1) &&
    (match hub.redis with
     | some r => r.deals.all (fun p => p.2.deal_id == p.1)
     | none => true)

/-- Scenario state (C3/C8): workspace `"W"` with required voters A and B,
deal `"D"` in IC review with no votes yet. -/
def exDealD : DealM :=
  ⟨"D", "W", DealStatus.ic_review, [], [], []⟩

/-- Scenario hub for `exDealD`. -/
def exHubWD : Hub :=
  ⟨[("W", ⟨"W", ["A", "B"]⟩)], [("D", exDealD)],
    some ⟨[("D", exDealD)], []⟩, []⟩

/-- Scenario state (C2): deal `"D2"` in IC review whose single required
voter A has voted strong_yes, quorum met, ready to finalize. -/
def exDealD2 : DealM :=
  ⟨"D2", "W2", DealStatus.ic_review, [("A", VoteType.strong_yes)], [], []⟩

/-- Scenario hub for `exDealD2`. -/
def exHubWD2 : Hub :=
  ⟨[("W2", ⟨"W2", ["A"]⟩)], [("D2", exDealD2)],
    some ⟨[("D2", exDealD2)], []⟩, []⟩

/-! ## End of definitions; helper lemmas and claim theorems follow. -/

/-- The rank of the threshold bucketing is monotone in the ratio. -/
theorem consensusRank_chain_mono (r₁ r₂ : Rat) (h : r₁ ≤ r₂) :
    consensusRank (specConsensusBucket r₁) ≤ consensusRank (specConsensusBucket r₂) := by
  unfold specConsensusBucket
  split_ifs <;> simp [consensusRank] <;> linarith

/-- C1: on every non-empty vote map, `calculate_vote_summary` returns
weighted_score = the sum of the fixed weights (strong_yes=2, yes=1,
neutral=0, no=-1, strong_no=-2, abstain=0), average_score =
weighted_score / number of votes, and the recommendation bucketed by the
average with thresholds 1.5 / 0.5 / −0.5; in particular the three-vote map
{A: strong_yes, B: yes, C: no} yields weighted_score 2, average 2/3 and
recommendation "proceed". -/
theorem calculate_vote_summary_correct :
    (∀ votes : List (String × VoteType), votes ≠ [] →
        (calculate_vote_summary votes).weightedScore =
          some ((votes.map (fun p => specVoteWeight p.2)).sum) ∧
        (calculate_vote_summary votes).averageScore =
          some (((votes.map (fun p => specVoteWeight p.2)).sum : Rat) / (votes.length : Rat)) ∧
        (calculate_vote_summary votes).recommendation =
          specRecommendationBucket
            (((votes.map (fun p => specVoteWeight p.2)).sum : Rat) / (votes.length : Rat))) ∧
    (calculate_vote_summary [("A", .strong_yes), ("B", .yes), ("C", .no)]).weightedScore =
      some 2 ∧
    (calculate_vote_summary [("A", .strong_yes), ("B", .yes), ("C", .no)]).averageScore =
      some ((2 : Rat)/3) ∧
    (calculate_vote_summary [("A", .strong_yes), ("B", .yes), ("C", .no)]).recommendation =
      "proceed" := by
  have hweq : ∀ p : String × VoteType, specVoteWeight p.2 = weights p.2 := by
    intro p; cases p.2 <;> rfl
  constructor
  · intro votes hne
    have hlen : ¬ votes.length = 0 := by simpa [List.length_eq_zero] using hne
    simp [calculate_vote_summary, VoteSummary.weightedScore, VoteSummary.averageScore,
      VoteSummary.recommendation, hlen, specRecommendationBucket, hweq]
  · refine ⟨?_, ?_, ?_⟩ <;>
      (simp [calculate_vote_summary, vote_counts, bumpCount, weights, calculate_consensus,
        max_votes, VoteType.value, VoteSummary.weightedScore, VoteSummary.averageScore,
        VoteSummary.recommendation]; try norm_num)

/-- Witness for C1: the single-vote map {A: yes} has weighted score 1. -/
theorem calculate_vote_summary_correct_witness :
    (calculate_vote_summary [("A", VoteType.yes)]).weightedScore = some 1 := by
  have h := (calculate_vote_summary_correct.1 [("A", VoteType.yes)] (by simp)).1
  simpa [specVoteWeight] using h

/-- C10: the empty vote map takes the `no_votes` early return of
`calculate_vote_summary`, `calculate_consensus` returns "no_consensus" at
total 0, and the branch of `calculate_vote_summary` containing the division
is reachable only for a non-empty vote map. -/
theorem zero_votes_guarded :
    calculate_vote_summary [] = VoteSummary.no_votes "no_votes" "pending" ∧
    (∀ counts, calculate_consensus counts 0 = "no_consensus") ∧
    (∀ votes t, calculate_vote_summary votes = VoteSummary.tallied t → votes ≠ []) := by
  refine ⟨rfl, fun counts => rfl, ?_⟩
  intro votes t h hne
  subst hne
  simp [calculate_vote_summary] at h

/-- Witness for C10: a concrete non-empty vote map produces the tallied
branch, so the third conjunct applies to it. -/
theorem zero_votes_guarded_witness :
    ([("A", VoteType.yes)] : List (String × VoteType)) ≠ [] := by
  refine zero_votes_guarded.2.2 [("A", VoteType.yes)]
    ⟨1, [("yes", 1)], 1, 1, "proceed", "strong_consensus"⟩ ?_
  simp [calculate_vote_summary, vote_counts, bumpCount, weights, calculate_consensus,
    max_votes, VoteType.value]
  norm_num

/-- C7: for a non-empty vote-count map with nonzero total,
`calculate_consensus` is exactly the bucket of the ratio
`max(count)/total` with thresholds 0.8 / 0.6 / 0.4, and the bucket is
monotone non-decreasing in that ratio. -/
theorem calculate_consensus_ratio_monotone :
    (∀ counts total, total ≠ 0 →
        calculate_consensus counts total =
          specConsensusBucket ((max_votes counts : Rat) / (total : Rat))) ∧
    (∀ (c₁ c₂ : List (String × Nat)) (t₁ t₂ : Nat), t₁ ≠ 0 → t₂ ≠ 0 →
        (max_votes c₁ : Rat) / (t₁ : Rat) ≤ (max_votes c₂ : Rat) / (t₂ : Rat) →
        consensusRank (calculate_consensus c₁ t₁) ≤
          consensusRank (calculate_consensus c₂ t₂)) := by
  have hform : ∀ counts total, total ≠ 0 →
      calculate_consensus counts total =
        specConsensusBucket ((max_votes counts : Rat) / (total : Rat)) := by
    intro counts total h
    simp [calculate_consensus, specConsensusBucket, h]
  refine ⟨hform, ?_⟩
  intro c₁ c₂ t₁ t₂ h₁ h₂ hle
  rw [hform c₁ t₁ h₁, hform c₂ t₂ h₂]
  exact consensusRank_chain_mono _ _ hle

/-- Witness for C7: two votes of the same type out of two is strong
consensus. -/
theorem calculate_consensus_ratio_monotone_witness :
    calculate_consensus [("yes", 2)] 2 = "strong_consensus" := by
  have h := calculate_consensus_ratio_monotone.1 [("yes", 2)] 2 (by decide)
  rw [h]
  norm_num [max_votes, specConsensusBucket]

end DealFlow

namespace DealFlow

/-- C4: verifying a freshly issued token before its 7-day expiry returns
exactly the issued deal id and permission set; verifying at or after
expiry fails with the `expired` (HTTP 401 "Share link expired") kind; a
token whose signature does not verify fails with the `invalid` kind. -/
theorem share_token_roundtrip :
    ∀ (secret deal_id : String) (perms : List (String × Bool)) (t₀ t₁ : Nat),
      (t₁ < t₀ + 604800 →
        verify_share_token secret t₁ (generate_share_token secret deal_id perms t₀) =
          .ok ⟨deal_id, perms, t₀ + 604800, t₀⟩) ∧
      (t₀ + 604800 ≤ t₁ →
        verify_share_token secret t₁ (generate_share_token secret deal_id perms t₀) =
          .error .expired) ∧
      (∀ tok : SignedToken, tok.sig ≠ (secret, tok.payload) →
        verify_share_token secret t₁ tok = .error .invalid) := by
  intro secret deal_id perms t₀ t₁
  refine ⟨?_, ?_, ?_⟩
  · intro h
    have hc : ¬ (t₀ + 7 * 24 * 60 * 60 ≤ t₁) := by omega
    simp [verify_share_token, jwt_decode, generate_share_token, jwt_encode, hc]
  · intro h
    have hc : t₀ + 7 * 24 * 60 * 60 ≤ t₁ := by omega
    simp [verify_share_token, jwt_decode, generate_share_token, jwt_encode, hc]
  · intro tok htok
    simp [verify_share_token, jwt_decode, htok]

/-- Witness for C4: a concrete token round-trips one second after issue,
expires exactly at the 7-day mark, and a payload-tampered token is
invalid. -/
theorem share_token_roundtrip_witness :
    verify_share_token "s" 1 (generate_share_token "s" "d1" [("can_view", true)] 0) =
      .ok ⟨"d1", [("can_view", true)], 604800, 0⟩ ∧
    verify_share_token "s" 604800 (generate_share_token "s" "d1" [("can_view", true)] 0) =
      .error .expired ∧
    verify_share_token "s" 1
        ⟨⟨"other", [], 604800, 0⟩, ("s", ⟨"d1", [], 604800, 0⟩)⟩ =
      .error .invalid := by
  have h := share_token_roundtrip "s" "d1" [("can_view", true)] 0 1
  have h2 := share_token_roundtrip "s" "d1" [("can_view", true)] 0 604800
  exact ⟨h.1 (by decide), h2.2.1 (by decide), h.2.2 _ (by decide)⟩

end DealFlow

namespace DealFlow

/-! ### Helper lemmas on the dict and hub operations -/

theorem dictGet_dictSet_self {α : Type} (m : List (String × α)) (k : String) (v : α) :
    dictGet (dictSet m k v) k = some v := by
  induction m with
  | nil => simp [dictSet, dictGet]
  | cons p t ih =>
    obtain ⟨k1, v1⟩ := p
    by_cases hk : k1 = k
    · subst hk
      simp [dictSet, dictGet]
    · simp [dictSet, hk, dictGet, ih]

theorem dictGet_dictSet_ne {α : Type} (m : List (String × α)) (k k2 : String) (v : α)
    (h : k2 ≠ k) : dictGet (dictSet m k v) k2 = dictGet m k2 := by
  induction m with
  | nil => simp [dictSet, dictGet, Ne.symm h]
  | cons p t ih =>
    obtain ⟨k1, v1⟩ := p
    by_cases hk : k1 = k
    · subst hk
      simp [dictSet, dictGet, Ne.symm h]
    · simp [dictSet, hk, dictGet, ih]

theorem dictSet_ne_nil {α : Type} (m : List (String × α)) (k : String) (v : α) :
    dictSet m k v ≠ [] := by
  cases m with
  | nil => simp [dictSet]
  | cons p t =>
    obtain ⟨k1, v1⟩ := p
    by_cases hk : k1 = k
    · simp [dictSet, hk]
    · simp [dictSet, hk]

theorem dictGet_mem {α : Type} (m : List (String × α)) (k : String) (v : α)
    (h : dictGet m k = some v) : (k, v) ∈ m := by
  induction m with
  | nil => simp [dictGet] at h
  | cons p t ih =>
    obtain ⟨k1, v1⟩ := p
    by_cases hk : k1 = k
    · subst hk
      simp [dictGet] at h
      simp [h]
    · simp [dictGet, hk] at h
      simp [ih h]

theorem get_deal_snd (hub : Hub) (id : String) :
    (get_deal hub id).2 = peek_deal hub id := by
  unfold get_deal peek_deal
  cases hc : dictGet hub.deal_cache id with
  | some d => simp
  | none =>
    cases hr : hub.redis with
    | none => simp
    | some r =>
      cases hd : dictGet r.deals id with
      | some d => simp [hd]
      | none => simp [hd]

theorem peek_get_deal_fst (hub : Hub) (id id2 : String) :
    peek_deal (get_deal hub id).1 id2 = peek_deal hub id2 := by
  unfold get_deal
  cases hc : dictGet hub.deal_cache id with
  | some d => simp
  | none =>
    cases hr : hub.redis with
    | none => simp
    | some r =>
      cases hd : dictGet r.deals id with
      | none => simp [hd]
      | some d =>
        simp only [hd, peek_deal]
        by_cases hid : id2 = id
        · subst hid
          simp [dictGet_dictSet_self, hc, hr, hd]
        · simp [hd, dictGet_dictSet_ne _ _ _ _ hid, hr]

theorem get_deal_none_fst (hub : Hub) (id : String)
    (h : (get_deal hub id).2 = none) : (get_deal hub id).1 = hub := by
  unfold get_deal at h ⊢
  cases hc : dictGet hub.deal_cache id with
  | some d => simp [hc] at h
  | none =>
    cases hr : hub.redis with
    | none => simp
    | some r =>
      cases hd : dictGet r.deals id with
      | none => simp [hd]
      | some d => simp [hc, hr, hd] at h

theorem peek_emit (hub : Hub) (e : Effect) (id : String) :
    peek_deal (emit hub e) id = peek_deal hub id := rfl

theorem peek_save_put (hub : Hub) (d : DealM) (key id : String) (hd : d.deal_id = key) :
    peek_deal (save_deal (cache_put hub key d) d) id =
      if id = key then some d else peek_deal hub id := by
  unfold peek_deal save_deal cache_put
  by_cases hid : id = key
  · subst hid
    cases hr : hub.redis with
    | none => simp [dictGet_dictSet_self]
    | some r => simp [dictGet_dictSet_self]
  · cases hr : hub.redis with
    | none => simp [hid, dictGet_dictSet_ne _ _ _ _ hid]
    | some r =>
      have hne2 : id ≠ d.deal_id := by rw [hd]; exact hid
      simp [hid, dictGet_dictSet_ne _ _ _ _ hid, dictGet_dictSet_ne _ _ _ _ hne2]

theorem peek_save_dd (hub : Hub) (item : DDItemM) (id : String) :
    peek_deal (save_dd_item hub item) id = peek_deal hub id := by
  unfold peek_deal save_dd_item
  cases hr : hub.redis with
  | none => simp [hr]
  | some r => simp [hr]

theorem count_final_emit_nonfinal (hub : Hub) (e : Effect)
    (h : (match e with
          | .broadcast _ (.ic_decision_final _ _ _) _ => true
          | _ => false) = false) :
    count_final_broadcasts (emit hub e) = count_final_broadcasts hub := by
  simp [count_final_broadcasts, emit, List.filter_append, h]

theorem count_final_emit_final (hub : Hub) (ws deal_id decision : String)
    (s : VoteSummary) (ex : Option String) :
    count_final_broadcasts
        (emit hub (.broadcast ws (.ic_decision_final deal_id decision s) ex)) =
      count_final_broadcasts hub + 1 := by
  simp [count_final_broadcasts, emit, List.filter_append]

theorem consensusLevel_isSome (votes : List (String × VoteType)) (h : votes ≠ []) :
    ∃ cl, (calculate_vote_summary votes).consensusLevel = some cl := by
  have hlen : ¬ votes.length = 0 := by simpa [List.length_eq_zero] using h
  simp [calculate_vote_summary, hlen, VoteSummary.consensusLevel]

theorem peek_keys_ok (hub : Hub) (hk : deal_keys_ok hub = true) (id : String) (d : DealM)
    (h : peek_deal hub id = some d) : d.deal_id = id := by
  simp only [deal_keys_ok, Bool.and_eq_true, List.all_eq_true] at hk
  unfold peek_deal at h
  cases hc : dictGet hub.deal_cache id with
  | some d2 =>
    rw [hc] at h
    injection h with h2
    subst h2
    have hm := dictGet_mem _ _ _ hc
    have := hk.1 _ hm
    simpa using this
  | none =>
    rw [hc] at h
    cases hr : hub.redis with
    | none => rw [hr] at h; simp at h
    | some r =>
      rw [hr] at h
      have hm := dictGet_mem _ _ _ h
      have hk2 := hk.2
      rw [hr] at hk2
      simp only [List.all_eq_true] at hk2
      have := hk2 _ hm
      simpa using this

theorem save_deal_effects (hub : Hub) (d : DealM) :
    (save_deal hub d).effects = hub.effects := by
  unfold save_deal; cases hub.redis <;> rfl

theorem save_deal_cache (hub : Hub) (d : DealM) :
    (save_deal hub d).deal_cache = hub.deal_cache := by
  unfold save_deal; cases hub.redis <;> rfl

theorem count_final_congr (h1 h2 : Hub) (h : h1.effects = h2.effects) :
    count_final_broadcasts h1 = count_final_broadcasts h2 := by
  unfold count_final_broadcasts; rw [h]

theorem get_deal_cache_hit (hub : Hub) (id : String) (d : DealM)
    (h : dictGet hub.deal_cache id = some d) : get_deal hub id = (hub, some d) := by
  unfold get_deal; rw [h]

theorem get_deal_fst_effects (hub : Hub) (id : String) :
    (get_deal hub id).1.effects = hub.effects := by
  unfold get_deal
  cases hc : dictGet hub.deal_cache id with
  | some d => simp
  | none =>
    cases hr : hub.redis with
    | none => simp
    | some r =>
      cases hd : dictGet r.deals id with
      | none => simp [hd]
      | some d => simp [hd]

theorem log_activity_cached (hub : Hub) (id u a det : String) (d : DealM)
    (hc : dictGet hub.deal_cache id = some d) (hdid : d.deal_id = id) :
    count_final_broadcasts (log_activity hub id u a det) = count_final_broadcasts hub ∧
    (∀ id2, id2 ≠ id → peek_deal (log_activity hub id u a det) id2 = peek_deal hub id2) ∧
    (peek_deal (log_activity hub id u a det) id).map (fun x => x.activity_log.length) =
      some (d.activity_log.length + 1) := by
  unfold log_activity
  rw [get_deal_cache_hit hub id d hc]
  refine ⟨?_, ?_, ?_⟩
  · apply count_final_congr
    rw [save_deal_effects]
    rfl
  · intro id2 h2
    rw [peek_save_put _ _ _ _ (by simpa using hdid)]
    simp [h2]
  · rw [peek_save_put _ _ _ _ (by simpa using hdid)]
    simp

theorem log_after_put_emit (hub : Hub) (d : DealM) (key ws dec u a det : String)
    (s : VoteSummary) (hd : d.deal_id = key) :
    count_final_broadcasts (log_activity
      (emit (save_deal (cache_put hub key d) d)
        (Effect.broadcast ws (OutEvent.ic_decision_final key dec s) none)) key u a det) =
      count_final_broadcasts hub + 1 ∧
    (∀ id2, id2 ≠ key → peek_deal (log_activity
      (emit (save_deal (cache_put hub key d) d)
        (Effect.broadcast ws (OutEvent.ic_decision_final key dec s) none)) key u a det) id2 =
      peek_deal hub id2) ∧
    (peek_deal (log_activity
      (emit (save_deal (cache_put hub key d) d)
        (Effect.broadcast ws (OutEvent.ic_decision_final key dec s) none)) key u a det) key).map
        (fun x => x.activity_log.length) = some (d.activity_log.length + 1) := by
  have hcache : dictGet (emit (save_deal (cache_put hub key d) d)
      (Effect.broadcast ws (OutEvent.ic_decision_final key dec s) none)).deal_cache key =
      some d := by
    show dictGet (save_deal (cache_put hub key d) d).deal_cache key = some d
    rw [save_deal_cache]
    exact dictGet_dictSet_self _ _ _
  obtain ⟨h1, h2, h3⟩ := log_activity_cached _ key u a det d hcache hd
  refine ⟨?_, ?_, ?_⟩
  · rw [h1, count_final_emit_final]
    congr 1
    apply count_final_congr
    rw [save_deal_effects]
    rfl
  · intro id2 hne2
    rw [h2 id2 hne2, peek_emit, peek_save_put _ _ _ _ hd]
    simp [hne2]
  · exact h3

theorem finalize_observables (hub : Hub) (deal : DealM) (ws : String)
    (hne : deal.ic_votes ≠ []) :
    ∃ hub5, finalize_ic_decision hub deal ws = .ok hub5 ∧
      count_final_broadcasts hub5 = count_final_broadcasts hub + 1 ∧
      (∀ id, id ≠ deal.deal_id → peek_deal hub5 id = peek_deal hub id) ∧
      ((peek_deal hub5 deal.deal_id).map (fun d2 => d2.activity_log.length)) =
        some (deal.activity_log.length + 1) := by
  obtain ⟨cl, hcl⟩ := consensusLevel_isSome deal.ic_votes hne
  simp only [finalize_ic_decision, hcl]
  exact ⟨_, rfl, log_after_put_emit hub _ deal.deal_id ws _ "system" "ic_decision" _ _ rfl⟩

/-- A vote cast on a known deal succeeds and touches activity logs only
through finalization: no other deal's log changes, and the voted deal's
log either stays unchanged (no `ic_decision_final` emitted) or grows by
exactly one entry together with exactly one `ic_decision_final`. -/
theorem handle_vote_cast_observables (hub : Hub) (u ws deal_id : String) (v : VoteType)
    (c : String) (hk : deal_keys_ok hub = true) :
    ∃ hub1, handle_vote_cast hub u ws deal_id v c = .ok hub1 ∧
      (∀ id, id ≠ deal_id → activity_len hub1 id = activity_len hub id) ∧
      ((count_final_broadcasts hub1 = count_final_broadcasts hub ∧
          activity_len hub1 deal_id = activity_len hub deal_id) ∨
        (count_final_broadcasts hub1 = count_final_broadcasts hub + 1 ∧
          activity_len hub1 deal_id = (activity_len hub deal_id).map (fun n => n + 1))) := by
  rcases hGD : get_deal hub deal_id with ⟨hub0, od⟩
  have hfst : ∀ id2, peek_deal hub0 id2 = peek_deal hub id2 := by
    intro id2
    rw [← peek_get_deal_fst hub deal_id id2, hGD]
  have heff : hub0.effects = hub.effects := by
    rw [← get_deal_fst_effects hub deal_id, hGD]
  cases od with
  | none =>
    have h1 : (get_deal hub deal_id).1 = hub := get_deal_none_fst hub deal_id (by rw [hGD])
    rw [hGD] at h1
    simp only at h1
    subst h1
    refine ⟨hub0, ?_, ?_, ?_⟩
    · simp only [handle_vote_cast, hGD]
    · intro id _
      rfl
    · exact Or.inl ⟨rfl, rfl⟩
  | some deal =>
    have hpeek : peek_deal hub deal_id = some deal := by
      rw [← get_deal_snd, hGD]
    have hdid : deal.deal_id = deal_id := peek_keys_ok hub hk _ _ hpeek
    simp only [handle_vote_cast, hGD]
    generalize hd1 : ({ deal with ic_votes := dictSet deal.ic_votes u v, ic_comments := (if c ≠ "" then deal.ic_comments ++ [(⟨u, c, v.value⟩ : IcComment)] else deal.ic_comments) } : DealM) = d1
    have hd1id : d1.deal_id = deal_id := by
      rw [← hd1]
      exact hdid
    have hvotes1 : d1.ic_votes = dictSet deal.ic_votes u v := by
      rw [← hd1]
    have hact1 : d1.activity_log = deal.activity_log := by
      rw [← hd1]
    generalize hh2 : emit (save_deal (cache_put hub0 deal_id d1) d1)
      (Effect.broadcast ws
        (OutEvent.vote_update deal_id u v.value
          (calculate_vote_summary (dictSet deal.ic_votes u v))) none) = hub2
    have hp2 : ∀ id2, peek_deal hub2 id2 =
        if id2 = deal_id then some d1 else peek_deal hub id2 := by
      intro id2
      rw [← hh2, peek_emit, peek_save_put _ _ _ _ hd1id]
      by_cases hc2 : id2 = deal_id
      · simp [hc2]
      · simp [hc2, hfst]
    have hcf2 : count_final_broadcasts hub2 = count_final_broadcasts hub := by
      rw [← hh2, count_final_emit_nonfinal _ _ rfl]
      have : (save_deal (cache_put hub0 deal_id d1) d1).effects = hub.effects := by
        rw [save_deal_effects]
        exact heff
      exact count_final_congr _ _ this
    cases hivc : is_voting_complete hub2 d1 ws with
    | false =>
      refine ⟨hub2, by simp [hivc], ?_, Or.inl ⟨hcf2, ?_⟩⟩
      · intro id hid
        unfold activity_len
        rw [hp2 id]
        simp [hid]
      · unfold activity_len
        rw [hp2 deal_id, hpeek]
        simp [hact1]
    | true =>
      have hne1 : d1.ic_votes ≠ [] := by
        rw [hvotes1]
        exact dictSet_ne_nil _ _ _
      obtain ⟨hub5, hok, hcf5, hpeek5, hact5⟩ := finalize_observables hub2 d1 ws hne1
      refine ⟨hub5, by simp [hivc, hok], ?_, Or.inr ⟨?_, ?_⟩⟩
      · intro id hid
        unfold activity_len
        rw [hpeek5 id (by rw [hd1id]; exact hid), hp2 id]
        simp [hid]
      · rw [hcf5, hcf2]
      · unfold activity_len
        rw [hpeek, ← hd1id]
        rw [hact5]
        simp [hact1]

/-- A DD item update never touches any deal, hence no activity log. -/
theorem dd_update_preserves_activity (hub : Hub) (u ws item_id : String)
    (updates : DDUpdates) (id : String) :
    activity_len (handle_dd_item_update hub u ws item_id updates) id =
      activity_len hub id := by
  unfold handle_dd_item_update
  cases hgi : get_dd_item hub item_id with
  | none => rfl
  | some item =>
    unfold activity_len
    by_cases hst : updates.status = some "completed"
    · simp [hst, peek_emit, peek_save_dd]
    · simp [hst, peek_emit, peek_save_dd]

end DealFlow

namespace DealFlow

/-- C3: with the workspace present in the cache, `is_voting_complete` is
true iff every required voter (all workspace members) has an entry in
`deal.ic_votes`; and in the concrete scenario with required voters
{A, B} and a vote cast only by A, it returns false, the deal stays in
IC_REVIEW, and the vote cast emits no `ic_decision_final` event. -/
theorem voting_complete_iff_all_members_voted :
    (∀ (hub : Hub) (deal : DealM) (workspace_id : String) (ws : WorkspaceM),
        dictGet hub.workspace_cache workspace_id = some ws →
        (is_voting_complete hub deal workspace_id = true ↔
          ∀ voter ∈ get_required_voters ws, voter ∈ deal.ic_votes.map Prod.fst)) ∧
    (match handle_vote_cast exHubWD "A" "W" "D" VoteType.yes "" with
     | .error _ => False
     | .ok hub1 =>
         status_of hub1 "D" = some DealStatus.ic_review ∧
         count_final_broadcasts hub1 = 0 ∧
         (peek_deal hub1 "D").map (fun d => is_voting_complete hub1 d "W") = some false) := by
  constructor
  · intro hub deal wsId ws h
    simp [is_voting_complete, h, get_required_voters, List.all_eq_true]
  · norm_num [handle_vote_cast, exHubWD, exDealD, calculate_vote_summary, vote_counts,
      bumpCount, weights, calculate_consensus, max_votes, VoteType.value,
      VoteSummary.recommendation, VoteSummary.consensusLevel, is_voting_complete,
      get_required_voters, finalize_ic_decision, log_activity, get_deal, save_deal,
      cache_put, emit, peek_deal, status_of, activity_len, count_final_broadcasts,
      dictGet, dictSet, show ("B" : String) ≠ "A" by decide]

/-- Witness for C3: the quorum test instantiated at the concrete
workspace {A, B} and the voteless deal. -/
theorem voting_complete_iff_witness :
    is_voting_complete exHubWD exDealD "W" = true ↔
      ∀ voter ∈ get_required_voters ⟨"W", ["A", "B"]⟩,
        voter ∈ exDealD.ic_votes.map Prod.fst :=
  voting_complete_iff_all_members_voted.1 exHubWD exDealD "W" ⟨"W", ["A", "B"]⟩ (by decide)

/-- C2 (code bug): re-finalizing a finalized deal reproduces the same
terminal status, but the second call emits a second `ic_decision_final`
broadcast and appends a second activity entry — it is not a no-op, the
source has no finalized-guard. -/
theorem refinalize_emits_second_broadcast :
    (match finalize_ic_decision exHubWD2 exDealD2 "W2" with
     | .error _ => False
     | .ok hub1 =>
       status_of hub1 "D2" = some DealStatus.negotiation ∧
       count_final_broadcasts hub1 = 1 ∧
       activity_len hub1 "D2" = some 1 ∧
       (match peek_deal hub1 "D2" with
        | none => False
        | some d1 =>
          match finalize_ic_decision hub1 d1 "W2" with
          | .error _ => False
          | .ok hub2 =>
            status_of hub2 "D2" = some DealStatus.negotiation ∧
            count_final_broadcasts hub2 = 2 ∧
            activity_len hub2 "D2" = some 2)) := by
  norm_num [finalize_ic_decision, exHubWD2, exDealD2, calculate_vote_summary,
    vote_counts, bumpCount, weights, calculate_consensus, max_votes, VoteType.value,
    VoteSummary.recommendation, VoteSummary.consensusLevel, log_activity, get_deal,
    save_deal, cache_put, emit, peek_deal, status_of, activity_len,
    count_final_broadcasts, dictGet, dictSet]

/-- C8 counterexample: casting an IC vote that does not complete the
quorum appends zero activity-log entries, not exactly one. -/
theorem vote_cast_appends_no_activity_entry :
    activity_len exHubWD "D" = some 0 ∧
    (match handle_vote_cast exHubWD "A" "W" "D" VoteType.yes "" with
     | .error _ => False
     | .ok hub1 => activity_len hub1 "D" = some 0 ∧ count_final_broadcasts hub1 = 0) := by
  norm_num [handle_vote_cast, exHubWD, exDealD, calculate_vote_summary, vote_counts,
    bumpCount, weights, calculate_consensus, max_votes, VoteType.value,
    VoteSummary.recommendation, VoteSummary.consensusLevel, is_voting_complete,
    get_required_voters, finalize_ic_decision, log_activity, get_deal, save_deal,
    cache_put, emit, peek_deal, status_of, activity_len, count_final_broadcasts,
    dictGet, dictSet, show ("B" : String) ≠ "A" by decide]

/-- C8 (amended): casting or overwriting an IC vote appends an activity
entry only when it completes the quorum and triggers finalization — then
exactly one entry, together with exactly one `ic_decision_final` — and
otherwise appends none; it never touches another deal's log; updating a
due-diligence item never appends any activity entry. -/
theorem activity_log_discipline :
    (∀ (hub : Hub) (u ws deal_id : String) (v : VoteType) (c : String),
        deal_keys_ok hub = true →
        ∃ hub1, handle_vote_cast hub u ws deal_id v c = .ok hub1 ∧
          (∀ id, id ≠ deal_id → activity_len hub1 id = activity_len hub id) ∧
          ((count_final_broadcasts hub1 = count_final_broadcasts hub ∧
              activity_len hub1 deal_id = activity_len hub deal_id) ∨
            (count_final_broadcasts hub1 = count_final_broadcasts hub + 1 ∧
              activity_len hub1 deal_id =
                (activity_len hub deal_id).map (fun n => n + 1)))) ∧
    (∀ (hub : Hub) (u ws item_id : String) (updates : DDUpdates) (id : String),
        activity_len (handle_dd_item_update hub u ws item_id updates) id =
          activity_len hub id) :=
  ⟨fun hub u ws deal_id v c hk => handle_vote_cast_observables hub u ws deal_id v c hk,
   fun hub u ws item_id updates id => dd_update_preserves_activity hub u ws item_id updates id⟩

/-- Witness for C8 (amended): the discipline instantiated at the
concrete one-vote scenario. -/
theorem activity_log_discipline_witness :
    ∃ hub1, handle_vote_cast exHubWD "A" "W" "D" VoteType.yes "" = .ok hub1 ∧
      (∀ id, id ≠ "D" → activity_len hub1 id = activity_len exHubWD id) ∧
      ((count_final_broadcasts hub1 = count_final_broadcasts exHubWD ∧
          activity_len hub1 "D" = activity_len exHubWD "D") ∨
        (count_final_broadcasts hub1 = count_final_broadcasts exHubWD + 1 ∧
          activity_len hub1 "D" = (activity_len exHubWD "D").map (fun n => n + 1))) :=
  activity_log_discipline.1 exHubWD "A" "W" "D" VoteType.yes "" (by decide)

/-- C9 (code bug): after a second connect for the same (user, workspace)
pair, the user→connection map holds only the new socket, but the
workspace's connection set still contains the old socket — the old
registry entry is not replaced. -/
theorem second_connect_keeps_stale_socket :
    (connect_websocket ((connect_websocket ⟨[], []⟩ 1 "A" "W").1) 2 "A" "W").1 =
      ⟨[("W", [1, 2])], [("A", 2)]⟩ ∧
    dictGet (connect_websocket ((connect_websocket ⟨[], []⟩ 1 "A" "W").1) 2 "A"
        "W").1.active_connections "W" = some [1, 2] := by
  decide

/-- C5 (code bug): with a dead socket first in the workspace set and a
live one after it, the send failure is caught and the dead socket is
pruned, but the set mutation makes the next iterator step raise
RuntimeError: the live socket never receives the message and the error
propagates to the sender (`false` in the third component). -/
theorem broadcast_dead_peer_aborts_delivery :
    broadcast_to_workspace ⟨[("W", [1, 2])], [("A", 1), ("B", 2)]⟩
        (fun c => c != 1) "W" none =
      ([], ⟨[("W", [2])], [("A", 1), ("B", 2)]⟩, false) := by
  decide

/-- C6 (code bug): every call to `handle_websocket_message` — including
the unknown-type message "frobnicate" — raises AttributeError while
building the handlers dict, because `handle_annotation_reply` (and two
further referenced handlers) are not defined on the class; the sender
never receives the documented error reply. -/
theorem unknown_type_attribute_error :
    handle_websocket_message "frobnicate" =
      .error "AttributeError: handle_annotation_reply" ∧
    (∀ mt : String, handle_websocket_message mt =
      .error "AttributeError: handle_annotation_reply") :=
  ⟨rfl, fun _ => rfl⟩

end DealFlow
